import Mathlib

/-!
# formme: the forms data-access layer (`internal/models/forms.go`)

A shallow embedding of `FormsModel` and its six operations.  The Go methods talk to a
`*sql.DB`; here the handle is a record of statement behaviours (`DB σ`) over an arbitrary
store state `σ`, threaded explicitly, together with a log of the statements issued.
Go `int` values are `Int` (no arithmetic is performed on them), Go `error` values are
`Option`al errors, `nil` being `none`.
-/

namespace Models

/-! ## Errors -/

/-- Errors reported by `database/sql` and the driver: the sentinel `sql.ErrNoRows`, or any
other error, identified by the text its `Error()` method returns. -/
inductive SqlError where
  | ErrNoRows
  | other (text : String)
  deriving DecidableEq, Repr

/-- The text of `err.Error()`. -/
def SqlError.Error : SqlError → String
  | .ErrNoRows => "sql: no rows in result set"
  | .other text => text

/-- Errors returned by the model: the package sentinels `ErrInvalidUserID`,
`ErrInvalidInput`, `ErrFormNotFound`, or an error of the store passed through as it is. -/
inductive ModelError where
  | ErrInvalidUserID
  | ErrInvalidInput
  | ErrFormNotFound
  | sql (e : SqlError)
  deriving DecidableEq, Repr

/-- Go `strings.Contains(s, substr)`. -/
def stringsContains (s substr : String) : Bool :=
  s.data.tails.any (fun t => substr.data.isPrefixOf t)

/-! ## Data model -/

/-- Go `type Form struct`. -/
structure Form where
  ID : Int
  Name : String
  Description : String
  CreatedAt : String
  LastModified : String
  FormVersion : Int
  deriving DecidableEq, Repr

/-- The zero value `Form{}`, also the value of `var f Form`. -/
def Form.zero : Form :=
  { ID := 0, Name := "", Description := "", CreatedAt := "", LastModified := "",
    FormVersion := 0 }

/-- Go `type FormInstance struct`. -/
structure FormInstance where
  ID : Int
  FormID : Int
  Fields : String
  CreatedAt : String
  FormVersion : Int
  deriving DecidableEq, Repr

/-- The zero value `FormInstance{}`. -/
def FormInstance.zero : FormInstance :=
  { ID := 0, FormID := 0, Fields := "", CreatedAt := "", FormVersion := 0 }

/-! ## The store handle -/

/-- Columns of `RETURNING id, created_at, updated_at, form_version`. -/
structure FormReturning where
  id : Int
  created_at : String
  updated_at : String
  form_version : Int
  deriving DecidableEq, Repr

/-- Columns of `RETURNING id, created_at`. -/
structure InstanceReturning where
  id : Int
  created_at : String
  deriving DecidableEq, Repr

/-- Columns of `SELECT id, name, description, created_at, updated_at`. -/
structure FormColumns where
  id : Int
  name : String
  description : String
  created_at : String
  updated_at : String
  deriving DecidableEq, Repr

/-- What `Scan` leaves in its five destinations when it did not reach them. -/
def FormColumns.zero : FormColumns :=
  { id := 0, name := "", description := "", created_at := "", updated_at := "" }

/-- Result of `DB.Query`: per row what `rows.Scan` yields, then what `rows.Err()` reports. -/
structure Rows where
  scans : List (Except SqlError FormColumns)
  err : Option SqlError

/-- The statements of `forms.go`, with their bound arguments in the order of the `?`. -/
inductive Call where
  | queryForm (userID : Int) (name description : String)
  | queryFormInstance (formID : Int) (fields : String) (formVersion : Int)
  | getForm (formID : Int)
  | getFormsByUser (userID : Int)
  | updateFormName (name : String) (formID : Int)
  | updateFormDescription (description : String) (formID : Int)
  | deleteForm (formID : Int)
  deriving DecidableEq, Repr

/-- The behaviour of a store on the seven statements of `forms.go`.
`insertForm`, `insertFormInstance` are `QueryRow(..).Scan(..)` of the two `INSERT .. RETURNING`
statements; `selectForm` is `QueryRow(..).Scan(..)` of the lookup by id, giving what `Scan`
stored in its destinations and the error it returned; `selectFormsByUser` is `Query`;
the last three are `ExecuteSqlStmt(m.DB, stmt, args...)`, giving its `(rows, err)`. -/
structure DB (σ : Type) where
  insertForm : Int → String → String → σ → Except SqlError FormReturning × σ
  insertFormInstance : Int → String → Int → σ → Except SqlError InstanceReturning × σ
  selectForm : Int → σ → (FormColumns × Option SqlError) × σ
  selectFormsByUser : Int → σ → Except SqlError Rows × σ
  updateFormName : String → Int → σ → (Int × Option SqlError) × σ
  updateFormDescription : String → Int → σ → (Int × Option SqlError) × σ
  deleteForm : Int → σ → (Int × Option SqlError) × σ

/-- A store state together with the statements issued against it so far. -/
structure Conn (σ : Type) where
  store : σ
  calls : List Call

/-- Issue a statement: record it, run it on the store. -/
def Conn.issue {σ α : Type} (c : Conn σ) (call : Call) (run : σ → α × σ) : α × Conn σ :=
  ((run c.store).1, { store := (run c.store).2, calls := c.calls ++ [call] })

/-! ## The operations of `FormsModel` -/

/-- Go `func (m *FormsModel) InsertForm(userID int, name, description, fields string) error`. -/
def InsertForm {σ : Type} (db : DB σ) (userID : Int) (name description fields : String)
    (c : Conn σ) : Option ModelError × Conn σ :=
  if userID < 1 then
    (some .ErrInvalidUserID, c)
  else if name = "" ∨ fields = "" then
    (some .ErrInvalidInput, c)
  else
    match c.issue (.queryForm userID name description) (db.insertForm userID name description) with
    | (.error err, c1) =>
      if stringsContains err.Error "FOREIGN KEY constraint failed" then
        (some .ErrInvalidUserID, c1)
      else
        (some (.sql err), c1)
    | (.ok r, c1) =>
      let f : Form := { Form.zero with
        ID := r.id, CreatedAt := r.created_at, LastModified := r.updated_at,
        FormVersion := r.form_version }
      match c1.issue (.queryFormInstance f.ID fields f.FormVersion)
          (db.insertFormInstance f.ID fields f.FormVersion) with
      | (.error err, c2) => (some (.sql err), c2)
      | (.ok _, c2) => (none, c2)

/-- Go `func (m *FormsModel) GetForm(formID int) (Form, error)`. -/
def GetForm {σ : Type} (db : DB σ) (formID : Int) (c : Conn σ) :
    (Form × Option ModelError) × Conn σ :=
  match c.issue (.getForm formID) (db.selectForm formID) with
  | ((cols, err), c1) =>
    let f : Form := { Form.zero with
      ID := cols.id, Name := cols.name, Description := cols.description,
      CreatedAt := cols.created_at, LastModified := cols.updated_at }
    if err = some .ErrNoRows then
      ((Form.zero, some .ErrFormNotFound), c1)
    else
      ((f, err.map .sql), c1)

/-- The loop `for rows.Next() { .. rows.Scan(..) .. forms = append(forms, f) }` of
`GetFormsByUser`, appending to `forms`: an error is the early `return nil, err`. -/
def scanForms : List (Except SqlError FormColumns) → List Form → Except SqlError (List Form)
  | [], forms => .ok forms
  | .error err :: _, _ => .error err
  | .ok cols :: rest, forms =>
    let f : Form := { Form.zero with
      ID := cols.id, Name := cols.name, Description := cols.description,
      CreatedAt := cols.created_at, LastModified := cols.updated_at }
    scanForms rest (forms ++ [f])

/-- Go `func (m *FormsModel) GetFormsByUser(userID int) ([]Form, error)`; a `nil` slice is
the empty list. -/
def GetFormsByUser {σ : Type} (db : DB σ) (userID : Int) (c : Conn σ) :
    (List Form × Option ModelError) × Conn σ :=
  match c.issue (.getFormsByUser userID) (db.selectFormsByUser userID) with
  | (.error err, c1) => (([], some (.sql err)), c1)
  | (.ok rows, c1) =>
    match scanForms rows.scans [] with
    | .error err => (([], some (.sql err)), c1)
    | .ok forms =>
      match rows.err with
      | some err => (([], some (.sql err)), c1)
      | none => ((forms, none), c1)

/-- Go `func (m *FormsModel) UpdateFormName(formID int, name string) error`. -/
def UpdateFormName {σ : Type} (db : DB σ) (formID : Int) (name : String) (c : Conn σ) :
    Option ModelError × Conn σ :=
  match c.issue (.updateFormName name formID) (db.updateFormName name formID) with
  | ((rows, err), c1) =>
    if rows = 0 then (some .ErrFormNotFound, c1) else (err.map .sql, c1)

/-- Go `func (m *FormsModel) UpdateFormDescription(formID int, description string) error`. -/
def UpdateFormDescription {σ : Type} (db : DB σ) (formID : Int) (description : String)
    (c : Conn σ) : Option ModelError × Conn σ :=
  match c.issue (.updateFormDescription description formID)
      (db.updateFormDescription description formID) with
  | ((rows, err), c1) =>
    if rows = 0 then (some .ErrFormNotFound, c1) else (err.map .sql, c1)

/-- Go `func (m *FormsModel) DeleteForm(formID int) error`. -/
def DeleteForm {σ : Type} (db : DB σ) (formID : Int) (c : Conn σ) :
    Option ModelError × Conn σ :=
  match c.issue (.deleteForm formID) (db.deleteForm formID) with
  | ((rows, err), c1) =>
    if rows = 0 then (some .ErrFormNotFound, c1) else (err.map .sql, c1)

/-! ## A relational store

The tables and the engine are not part of `forms.go`; the statements it issues are.  The
state below holds the rows of the three tables the statements touch, and `relational` gives
each statement its SQL meaning on them. -/

/-- A row of table `forms`. -/
structure FormRow where
  id : Int
  user_id : Int
  name : String
  description : String
  created_at : String
  updated_at : String
  form_version : Int
  deriving DecidableEq, Repr

/-- A row of table `form_instances`. -/
structure FormInstanceRow where
  id : Int
  form_id : Int
  fields : String
  created_at : String
  form_version : Int
  deriving DecidableEq, Repr

/-- Modelled from the spec: the table definitions (the migrations are not in the source).
Section 6 leaves three things to the store: the default value of `forms.form_version`
("default initial value"), what the update trigger makes of it ("auto-incremented by a
store-side trigger or equivalent on update"), and whether deleting a form removes its
instances ("presumably cascading on delete").  They are parameters here. -/
structure Schema where
  initialVersion : Int
  versionOnUpdate : Int → Int
  cascadeDelete : Bool

/-- The rows of `users` (their ids), `forms` and `form_instances`, and the value of
`CURRENT_TIMESTAMP`. -/
structure Database where
  users : List Int
  forms : List FormRow
  form_instances : List FormInstanceRow
  now : String
  deriving DecidableEq, Repr

/-- Modelled from the spec: "id (store-assigned primary key)", an id greater than every id
in use and at least 1. -/
def nextID : List Int → Int
  | [] => 1
  | i :: ids => max (i + 1) (nextID ids)

/-- The projection `id, name, description, created_at, updated_at` of a `forms` row. -/
def FormRow.columns (r : FormRow) : FormColumns :=
  { id := r.id, name := r.name, description := r.description, created_at := r.created_at,
    updated_at := r.updated_at }

/-- Statement `INSERT INTO forms (user_id, name, description) VALUES (?, ?, ?)
RETURNING id, created_at, updated_at, form_version`, with the foreign key on `user_id`
enforced. -/
def Database.insertForm (sch : Schema) (userID : Int) (name description : String)
    (s : Database) : Except SqlError FormReturning × Database :=
  if userID ∈ s.users then
    let row : FormRow :=
      { id := nextID (s.forms.map (fun r => r.id)), user_id := userID, name := name,
        description := description, created_at := s.now, updated_at := s.now,
        form_version := sch.initialVersion }
    (.ok { id := row.id, created_at := row.created_at, updated_at := row.updated_at,
           form_version := row.form_version },
     { s with forms := s.forms ++ [row] })
  else
    (.error (.other "FOREIGN KEY constraint failed"), s)

/-- Statement `INSERT INTO form_instances (form_id, fields, form_version) VALUES (?, ?, ?)
RETURNING id, created_at`, with the foreign key on `form_id` enforced. -/
def Database.insertFormInstance (formID : Int) (fields : String) (formVersion : Int)
    (s : Database) : Except SqlError InstanceReturning × Database :=
  if formID ∈ s.forms.map (fun r => r.id) then
    let row : FormInstanceRow :=
      { id := nextID (s.form_instances.map (fun i => i.id)), form_id := formID,
        fields := fields, created_at := s.now, form_version := formVersion }
    (.ok { id := row.id, created_at := row.created_at },
     { s with form_instances := s.form_instances ++ [row] })
  else
    (.error (.other "FOREIGN KEY constraint failed"), s)

/-- Statement `SELECT id, name, description, created_at, updated_at FROM forms WHERE id = ?`, read
with `QueryRow(..).Scan(..)`: the first matching row, or `sql.ErrNoRows`. -/
def Database.selectForm (formID : Int) (s : Database) :
    (FormColumns × Option SqlError) × Database :=
  match s.forms.find? (fun r => decide (r.id = formID)) with
  | some r => ((r.columns, none), s)
  | none => ((FormColumns.zero, some .ErrNoRows), s)

/-- Statement `SELECT id, name, description, created_at, updated_at FROM forms WHERE
user_id = ?`, every row scanned without error. -/
def Database.selectFormsByUser (userID : Int) (s : Database) :
    Except SqlError Rows × Database :=
  (.ok { scans := (s.forms.filter (fun r => decide (r.user_id = userID))).map
                    (fun r => .ok r.columns),
         err := none }, s)

/-- Modelled from the spec: `ExecuteSqlStmt`, a helper of the repository that is not in the
source, reports the affected-row count of the statement ("detected via affected-row
count"): here the number of `forms` rows with the given id, the rows an `UPDATE` or
`DELETE` with `WHERE id = ?` affects. -/
def Database.rowsAffected (formID : Int) (s : Database) : Int :=
  ((s.forms.filter (fun r => decide (r.id = formID))).length : Int)

/-- Statement `UPDATE forms SET name = ?, updated_at = CURRENT_TIMESTAMP WHERE id = ?`, run
through `ExecuteSqlStmt`: the affected rows and a nil error. -/
def Database.updateFormName (sch : Schema) (name : String) (formID : Int) (s : Database) :
    (Int × Option SqlError) × Database :=
  ((s.rowsAffected formID, none),
   { s with forms := s.forms.map (fun r =>
      if r.id = formID then
        { r with name := name, updated_at := s.now,
                 form_version := sch.versionOnUpdate r.form_version }
      else r) })

/-- Statement `UPDATE forms SET description = ?, updated_at = CURRENT_TIMESTAMP WHERE
id = ?`, run through `ExecuteSqlStmt`: the affected rows and a nil error. -/
def Database.updateFormDescription (sch : Schema) (description : String) (formID : Int)
    (s : Database) : (Int × Option SqlError) × Database :=
  ((s.rowsAffected formID, none),
   { s with forms := s.forms.map (fun r =>
      if r.id = formID then
        { r with description := description, updated_at := s.now,
                 form_version := sch.versionOnUpdate r.form_version }
      else r) })

/-- Statement `DELETE FROM forms WHERE id = ?`, run through `ExecuteSqlStmt`; when a row is deleted
and the schema cascades, the instances of the form go with it. -/
def Database.deleteForm (sch : Schema) (formID : Int) (s : Database) :
    (Int × Option SqlError) × Database :=
  ((s.rowsAffected formID, none),
   { s with
     forms := s.forms.filter (fun r => decide (r.id ≠ formID)),
     form_instances :=
       if sch.cascadeDelete = true ∧ s.rowsAffected formID ≠ 0 then
         s.form_instances.filter (fun i => decide (i.form_id ≠ formID))
       else s.form_instances })

/-- Modelled from the spec: the storage collaborator of section 6, a store that holds the
two tables, enforces the foreign keys and does not fault. -/
def relational (sch : Schema) : DB Database :=
  { insertForm := Database.insertForm sch
    insertFormInstance := Database.insertFormInstance
    selectForm := Database.selectForm
    selectFormsByUser := Database.selectFormsByUser
    updateFormName := Database.updateFormName sch
    updateFormDescription := Database.updateFormDescription sch
    deleteForm := Database.deleteForm sch }

/-- A store on which the `form_instances` insert fails with `e`, leaving the state as it
is; every other statement behaves as in `db`. -/
def DB.failInstances {σ : Type} (db : DB σ) (e : SqlError) : DB σ :=
  { db with insertFormInstance := fun _ _ _ s => (.error e, s) }

/-- A store on which the three statements run through `ExecuteSqlStmt` fail with `e`,
leaving the state as it is and reporting no affected row. -/
def DB.failExec {σ : Type} (db : DB σ) (e : SqlError) : DB σ :=
  { db with
    updateFormName := fun _ _ s => ((0, some e), s)
    updateFormDescription := fun _ _ s => ((0, some e), s)
    deleteForm := fun _ s => ((0, some e), s) }

/-- A schema whose forms start at version 1 and gain one version per update, with
cascading deletes. -/
def Schema.example : Schema :=
  { initialVersion := 1, versionOnUpdate := fun v => v + 1, cascadeDelete := true }

/-- A store with user 1 and no form. -/
def Database.example : Database :=
  { users := [1], forms := [], form_instances := [], now := "2024-01-01 00:00:00" }

/-- A fresh connection: no statement issued yet. -/
def Conn.open {σ : Type} (s : σ) : Conn σ := { store := s, calls := [] }

/-- A store on which the lookup by id fails with `e` before `Scan` stores anything. -/
def DB.failSelect {σ : Type} (db : DB σ) (e : SqlError) : DB σ :=
  { db with selectForm := fun _ s => ((FormColumns.zero, some e), s) }

/-- A store with user 1, who owns form 1 and its first instance. -/
def Database.withForm : Database :=
  { users := [1]
    forms := [{ id := 1, user_id := 1, name := "Survey", description := "",
                created_at := "2024-01-01 00:00:00", updated_at := "2024-01-01 00:00:00",
                form_version := 1 }]
    form_instances := [{ id := 1, form_id := 1, fields := "{}",
                         created_at := "2024-01-01 00:00:00", form_version := 1 }]
    now := "2024-02-02 00:00:00" }

/-! ## Facts about the relational store -/

theorem lt_nextID (ids : List Int) : ∀ i ∈ ids, i < nextID ids := by
  induction ids with
  | nil => intro i hi; cases hi
  | cons j ids ih =>
    intro i hi
    rcases List.mem_cons.mp hi with rfl | hi
    · exact lt_of_lt_of_le (Int.lt_succ_self _) (le_max_left _ _)
    · exact lt_of_lt_of_le (ih i hi) (le_max_right _ _)

theorem relational_insertForm_failed (sch : Schema) (u : Int) (n d : String) (s : Database)
    (e : SqlError) (h : ((relational sch).insertForm u n d s).1 = .error e) :
    ((relational sch).insertForm u n d s).2 = s := by
  by_cases hm : u ∈ s.users
  · simp [relational, Database.insertForm, hm] at h
  · simp [relational, Database.insertForm, hm]

theorem relational_insertFormInstance_failed (sch : Schema) (i : Int) (f : String) (v : Int)
    (s : Database) (e : SqlError)
    (h : ((relational sch).insertFormInstance i f v s).1 = .error e) :
    ((relational sch).insertFormInstance i f v s).2 = s := by
  by_cases hm : i ∈ s.forms.map (fun r => r.id)
  · simp only [relational, Database.insertFormInstance, hm, if_true] at h
    cases h
  · simp only [relational, Database.insertFormInstance, hm, if_false]

theorem rowsAffected_eq_zero_iff (s : Database) (formID : Int) :
    s.rowsAffected formID = 0 ↔ ∀ r ∈ s.forms, r.id ≠ formID := by
  simp [Database.rowsAffected, List.filter_eq_nil_iff]

theorem DeleteForm_relational (sch : Schema) (c : Conn Database) (formID : Int) :
    DeleteForm (relational sch) formID c =
      (if c.store.rowsAffected formID = 0 then some .ErrFormNotFound else none,
       { store := (Database.deleteForm sch formID c.store).2,
         calls := c.calls ++ [Call.deleteForm formID] }) := by
  simp only [DeleteForm, Conn.issue, relational, Database.deleteForm]
  split <;> rfl

theorem UpdateFormName_relational (sch : Schema) (c : Conn Database) (formID : Int)
    (name : String) :
    UpdateFormName (relational sch) formID name c =
      (if c.store.rowsAffected formID = 0 then some .ErrFormNotFound else none,
       { store := (Database.updateFormName sch name formID c.store).2,
         calls := c.calls ++ [Call.updateFormName name formID] }) := by
  simp only [UpdateFormName, Conn.issue, relational, Database.updateFormName]
  split <;> rfl

theorem UpdateFormDescription_relational (sch : Schema) (c : Conn Database) (formID : Int)
    (description : String) :
    UpdateFormDescription (relational sch) formID description c =
      (if c.store.rowsAffected formID = 0 then some .ErrFormNotFound else none,
       { store := (Database.updateFormDescription sch description formID c.store).2,
         calls := c.calls ++ [Call.updateFormDescription description formID] }) := by
  simp only [UpdateFormDescription, Conn.issue, relational, Database.updateFormDescription]
  split <;> rfl

theorem rowsAffected_ne_zero (s : Database) (formID : Int)
    (h : ∃ r ∈ s.forms, r.id = formID) : s.rowsAffected formID ≠ 0 := by
  intro h0
  obtain ⟨r, hr, hid⟩ := h
  exact (rowsAffected_eq_zero_iff s formID).mp h0 r hr hid

theorem map_eq_self_of_no_match (rows : List FormRow) (formID : Int) (g : FormRow → FormRow)
    (h : ∀ r ∈ rows, r.id ≠ formID) :
    rows.map (fun r => if r.id = formID then g r else r) = rows := by
  induction rows with
  | nil => rfl
  | cons r rows ih =>
    have hr : r.id ≠ formID := h r (List.mem_cons_self _ _)
    have ht : ∀ x ∈ rows, x.id ≠ formID := fun x hx => h x (List.mem_cons_of_mem _ hx)
    simp only [List.map_cons, hr, if_false, ih ht]

theorem forall₂_map_update (rows : List FormRow) (formID : Int) (g : FormRow → FormRow)
    (R : FormRow → FormRow → Prop)
    (hg : ∀ r, r.id = formID → R r (g r)) (hr : ∀ r, r.id ≠ formID → R r r) :
    List.Forall₂ R rows (rows.map (fun r => if r.id = formID then g r else r)) := by
  induction rows with
  | nil => exact List.Forall₂.nil
  | cons r rows ih =>
    refine List.Forall₂.cons ?_ ih
    by_cases hid : r.id = formID
    · simpa only [hid, if_true] using hg r hid
    · simpa only [hid, if_false] using hr r hid

/-! ## Validation of `InsertForm` -/

/-- C1: for every userID below 1 and every name, description and fields, on every store,
InsertForm returns ErrInvalidUserID and issues no statement: the store state and the
record of calls are as before. -/
theorem InsertForm_invalid_userID {σ : Type} (db : DB σ) (c : Conn σ) (userID : Int)
    (name description fields : String) (h : userID < 1) :
    InsertForm db userID name description fields c = (some .ErrInvalidUserID, c) := by
  simp [InsertForm, h]

theorem InsertForm_invalid_userID_witness :
    ((0 : Int) < 1) ∧
    InsertForm (relational Schema.example) 0 "" "d" "" (Conn.open Database.example)
      = (some .ErrInvalidUserID, Conn.open Database.example) :=
  ⟨by decide, InsertForm_invalid_userID _ _ 0 "" "d" "" (by decide)⟩

/-- C2: for every userID of at least 1 and every description, when name is empty or fields
is empty, on every store, InsertForm returns ErrInvalidInput and issues no statement: the
store state and the record of calls are as before. -/
theorem InsertForm_invalid_input {σ : Type} (db : DB σ) (c : Conn σ) (userID : Int)
    (name description fields : String) (hu : 1 ≤ userID) (h : name = "" ∨ fields = "") :
    InsertForm db userID name description fields c = (some .ErrInvalidInput, c) := by
  have hu2 : ¬ userID < 1 := not_lt.mpr hu
  simp [InsertForm, hu2, h]

theorem InsertForm_invalid_input_witness :
    ((1 : Int) ≤ 7) ∧ ("Survey" = "" ∨ "" = "") ∧
    InsertForm (relational Schema.example) 7 "Survey" "d" "" (Conn.open Database.example)
      = (some .ErrInvalidInput, Conn.open Database.example) :=
  ⟨by decide, Or.inr rfl,
   InsertForm_invalid_input _ _ 7 "Survey" "d" "" (by decide) (Or.inr rfl)⟩

/-! ## Error mapping -/

/-- C6: for every valid input and every error `e` the store reports for the forms insert,
InsertForm returns ErrInvalidUserID when the text of `e` contains
"FOREIGN KEY constraint failed" and `e` itself otherwise; in both cases the forms insert is
the only statement issued, the form_instances insert is not attempted. -/
theorem InsertForm_forms_insert_error {σ : Type} (db : DB σ) (c : Conn σ) (userID : Int)
    (name description fields : String) (e : SqlError)
    (hu : 1 ≤ userID) (hn : name ≠ "") (hf : fields ≠ "")
    (he : (db.insertForm userID name description c.store).1 = .error e) :
    InsertForm db userID name description fields c =
      (some (if stringsContains e.Error "FOREIGN KEY constraint failed" = true
             then ModelError.ErrInvalidUserID else ModelError.sql e),
       { store := (db.insertForm userID name description c.store).2,
         calls := c.calls ++ [Call.queryForm userID name description] }) := by
  have hu2 : ¬ userID < 1 := not_lt.mpr hu
  simp only [InsertForm, hu2, hn, hf, Conn.issue, he, if_false, or_self]
  split <;> rfl

theorem InsertForm_forms_insert_error_witness :
    ((1 : Int) ≤ 2) ∧ "Survey" ≠ "" ∧ "{}" ≠ "" ∧
    ((relational Schema.example).insertForm 2 "Survey" "" Database.example).1
      = .error (.other "FOREIGN KEY constraint failed") ∧
    InsertForm (relational Schema.example) 2 "Survey" "" "{}" (Conn.open Database.example) =
      (some (if stringsContains (SqlError.other "FOREIGN KEY constraint failed").Error
                  "FOREIGN KEY constraint failed" = true
             then ModelError.ErrInvalidUserID
             else ModelError.sql (.other "FOREIGN KEY constraint failed")),
       { store := ((relational Schema.example).insertForm 2 "Survey" "" Database.example).2,
         calls := (Conn.open Database.example).calls ++ [Call.queryForm 2 "Survey" ""] }) :=
  ⟨by decide, by decide, by decide, rfl,
   InsertForm_forms_insert_error (relational Schema.example) (Conn.open Database.example) 2
     "Survey" "" "{}" (.other "FOREIGN KEY constraint failed")
     (by decide) (by decide) (by decide) rfl⟩

/-- C7: on every store and for every formID, when the lookup reports sql.ErrNoRows GetForm
returns the zero-valued Form with ErrFormNotFound; when it reports any other error `e`,
GetForm returns `e` as it is; and when it finds a row, GetForm returns a nil error and a
Form with the id, name, description, created_at and updated_at of the row. -/
theorem GetForm_result {σ : Type} (db : DB σ) (c : Conn σ) (formID : Int) :
    (∀ cols, (db.selectForm formID c.store).1 = (cols, some .ErrNoRows) →
      (GetForm db formID c).1 = (Form.zero, some .ErrFormNotFound)) ∧
    (∀ cols e, e ≠ SqlError.ErrNoRows → (db.selectForm formID c.store).1 = (cols, some e) →
      (GetForm db formID c).1.2 = some (.sql e)) ∧
    (∀ cols, (db.selectForm formID c.store).1 = (cols, none) →
      (GetForm db formID c).1 =
        ({ ID := cols.id, Name := cols.name, Description := cols.description,
           CreatedAt := cols.created_at, LastModified := cols.updated_at, FormVersion := 0 },
         none)) := by
  refine ⟨?_, ?_, ?_⟩
  · intro cols h
    simp [GetForm, Conn.issue, h]
  · intro cols e hne h
    simp [GetForm, Conn.issue, h, hne]
  · intro cols h
    simp [GetForm, Conn.issue, h, Form.zero]

theorem GetForm_result_witness :
    (GetForm (relational Schema.example) 5 (Conn.open Database.withForm)).1
      = (Form.zero, some .ErrFormNotFound) ∧
    (GetForm ((relational Schema.example).failSelect (.other "database is locked")) 1
        (Conn.open Database.withForm)).1.2
      = some (.sql (.other "database is locked")) ∧
    (GetForm (relational Schema.example) 1 (Conn.open Database.withForm)).1
      = ({ ID := 1, Name := "Survey", Description := "", CreatedAt := "2024-01-01 00:00:00",
           LastModified := "2024-01-01 00:00:00", FormVersion := 0 }, none) :=
  ⟨(GetForm_result (relational Schema.example) (Conn.open Database.withForm) 5).1
      FormColumns.zero rfl,
   (GetForm_result ((relational Schema.example).failSelect (.other "database is locked"))
      (Conn.open Database.withForm) 1).2.1 FormColumns.zero (.other "database is locked")
      (by decide) rfl,
   (GetForm_result (relational Schema.example) (Conn.open Database.withForm) 1).2.2
      { id := 1, name := "Survey", description := "", created_at := "2024-01-01 00:00:00",
        updated_at := "2024-01-01 00:00:00" } rfl⟩

/-- C4: on a store where the statement fails with "disk I/O error" and `ExecuteSqlStmt`
reports no affected row, UpdateFormName, UpdateFormDescription and DeleteForm on the
existing form 1 return ErrFormNotFound, not the error of the store. -/
theorem exec_fault_reported_as_not_found :
    (UpdateFormName ((relational Schema.example).failExec (.other "disk I/O error")) 1 "Poll"
        (Conn.open Database.withForm)).1 = some .ErrFormNotFound ∧
    (UpdateFormDescription ((relational Schema.example).failExec (.other "disk I/O error")) 1
        "weekly" (Conn.open Database.withForm)).1 = some .ErrFormNotFound ∧
    (DeleteForm ((relational Schema.example).failExec (.other "disk I/O error")) 1
        (Conn.open Database.withForm)).1 = some .ErrFormNotFound := by
  refine ⟨?_, ?_, ?_⟩ <;> rfl

/-! ## The two statements of `InsertForm` -/

/-- C3, as stated, fails: on a store with user 1 whose form_instances insert fails with
"database is locked", InsertForm(1, "Survey", "", "{}") returns that error, and the store
is not as before: it holds the new forms row and no form_instances row. -/
theorem InsertForm_not_atomic :
    (InsertForm ((relational Schema.example).failInstances (.other "database is locked"))
        1 "Survey" "" "{}" (Conn.open Database.example)).1
      = some (.sql (.other "database is locked")) ∧
    (InsertForm ((relational Schema.example).failInstances (.other "database is locked"))
        1 "Survey" "" "{}" (Conn.open Database.example)).2.store ≠ Database.example ∧
    (InsertForm ((relational Schema.example).failInstances (.other "database is locked"))
        1 "Survey" "" "{}" (Conn.open Database.example)).2.store.forms
      = [{ id := 1, user_id := 1, name := "Survey", description := "",
           created_at := "2024-01-01 00:00:00", updated_at := "2024-01-01 00:00:00",
           form_version := 1 }] ∧
    (InsertForm ((relational Schema.example).failInstances (.other "database is locked"))
        1 "Survey" "" "{}" (Conn.open Database.example)).2.store.form_instances = [] := by
  refine ⟨rfl, by decide, rfl, rfl⟩

/-- C3, amended: InsertForm is not atomic.  On a store whose failed inserts leave its
state as it was, and for every valid input: when the forms insert fails, InsertForm
returns its error (mapped to ErrInvalidUserID for a foreign key violation) and the store
state is unchanged; when the forms insert succeeds and the form_instances insert fails
with `e`, InsertForm returns `e` and the store is left in the state the forms insert
produced, the new forms row is not rolled back; and an error of InsertForm arises in one
of these two ways. -/
theorem InsertForm_error_store {σ : Type} (db : DB σ)
    (hForm : ∀ u n d s e, (db.insertForm u n d s).1 = .error e → (db.insertForm u n d s).2 = s)
    (hInst : ∀ i f v s e, (db.insertFormInstance i f v s).1 = .error e →
      (db.insertFormInstance i f v s).2 = s)
    (c : Conn σ) (userID : Int) (name description fields : String)
    (hu : 1 ≤ userID) (hn : name ≠ "") (hf : fields ≠ "") :
    (∀ e, (db.insertForm userID name description c.store).1 = .error e →
      (InsertForm db userID name description fields c).1
        = some (if stringsContains e.Error "FOREIGN KEY constraint failed" = true
                then ModelError.ErrInvalidUserID else ModelError.sql e) ∧
      (InsertForm db userID name description fields c).2.store = c.store) ∧
    (∀ r e, (db.insertForm userID name description c.store).1 = .ok r →
      (db.insertFormInstance r.id fields r.form_version
          (db.insertForm userID name description c.store).2).1 = .error e →
      (InsertForm db userID name description fields c).1 = some (.sql e) ∧
      (InsertForm db userID name description fields c).2.store
        = (db.insertForm userID name description c.store).2 ∧
      (InsertForm db userID name description fields c).2.calls
        = c.calls ++ [Call.queryForm userID name description,
                      Call.queryFormInstance r.id fields r.form_version]) ∧
    (∀ err, (InsertForm db userID name description fields c).1 = some err →
      (∃ e, (db.insertForm userID name description c.store).1 = .error e) ∨
      (∃ r e, (db.insertForm userID name description c.store).1 = .ok r ∧
        (db.insertFormInstance r.id fields r.form_version
            (db.insertForm userID name description c.store).2).1 = .error e)) := by
  have hu2 : ¬ userID < 1 := not_lt.mpr hu
  refine ⟨?_, ?_, ?_⟩
  · intro e he
    have hs := hForm _ _ _ _ _ he
    simp only [InsertForm, hu2, hn, hf, Conn.issue, he, if_false, or_self]
    split <;> exact ⟨rfl, hs⟩
  · intro r e hr he
    have hs := hInst _ _ _ _ _ he
    simp only [InsertForm, hu2, hn, hf, Conn.issue, hr, Form.zero, he, if_false, or_self]
    exact ⟨trivial, hs, by simp⟩
  · intro err h
    cases h1 : (db.insertForm userID name description c.store).1 with
    | error e => exact Or.inl ⟨e, rfl⟩
    | ok r =>
      right
      cases h2 : (db.insertFormInstance r.id fields r.form_version
          (db.insertForm userID name description c.store).2).1 with
      | error e => exact ⟨r, e, rfl, h2⟩
      | ok _ =>
        simp [InsertForm, hu2, hn, hf, Conn.issue, h1, Form.zero, h2] at h

theorem InsertForm_error_store_witness :
    ((1 : Int) ≤ 1) ∧ "Survey" ≠ "" ∧ "{}" ≠ "" ∧
    (((relational Schema.example).failInstances (.other "database is locked")).insertForm
        1 "Survey" "" (Conn.open Database.example).store).1
      = .ok { id := 1, created_at := "2024-01-01 00:00:00",
              updated_at := "2024-01-01 00:00:00", form_version := 1 } ∧
    (((relational Schema.example).failInstances
        (.other "database is locked")).insertFormInstance 1 "{}" 1
        (((relational Schema.example).failInstances (.other "database is locked")).insertForm
            1 "Survey" "" (Conn.open Database.example).store).2).1
      = .error (.other "database is locked") ∧
    ((InsertForm ((relational Schema.example).failInstances (.other "database is locked"))
        1 "Survey" "" "{}" (Conn.open Database.example)).1
      = some (.sql (.other "database is locked")) ∧
     (InsertForm ((relational Schema.example).failInstances (.other "database is locked"))
        1 "Survey" "" "{}" (Conn.open Database.example)).2.store
      = (((relational Schema.example).failInstances (.other "database is locked")).insertForm
          1 "Survey" "" (Conn.open Database.example).store).2 ∧
     (InsertForm ((relational Schema.example).failInstances (.other "database is locked"))
        1 "Survey" "" "{}" (Conn.open Database.example)).2.calls
      = (Conn.open Database.example).calls ++
          [Call.queryForm 1 "Survey" "", Call.queryFormInstance 1 "{}" 1]) :=
  ⟨by decide, by decide, by decide, rfl, rfl,
   (InsertForm_error_store
     ((relational Schema.example).failInstances (.other "database is locked"))
     (fun u n d s e h => relational_insertForm_failed Schema.example u n d s e h)
     (fun _ _ _ _ _ _ => rfl)
     (Conn.open Database.example) 1 "Survey" "" "{}"
     (by decide) (by decide) (by decide)).2.1
     { id := 1, created_at := "2024-01-01 00:00:00", updated_at := "2024-01-01 00:00:00",
       form_version := 1 }
     (.other "database is locked") rfl rfl⟩

/-- C10: on the relational store, whenever InsertForm returns no error it issued exactly
the two inserts and the store gained exactly two rows: one forms row with the given
userID, name and description, under a new id, and one form_instances row whose form_id is
the id the store returned for that forms row, whose fields is the given payload and whose
form_version is the form_version the store returned for that forms row. -/
theorem InsertForm_creates_two_rows (sch : Schema) (c : Conn Database) (userID : Int)
    (name description fields : String)
    (h : (InsertForm (relational sch) userID name description fields c).1 = none) :
    ∃ (row : FormRow) (inst : FormInstanceRow),
      (InsertForm (relational sch) userID name description fields c).2.store.forms
        = c.store.forms ++ [row] ∧
      (InsertForm (relational sch) userID name description fields c).2.store.form_instances
        = c.store.form_instances ++ [inst] ∧
      (InsertForm (relational sch) userID name description fields c).2.store.users
        = c.store.users ∧
      row.user_id = userID ∧ row.name = name ∧ row.description = description ∧
      (∀ r ∈ c.store.forms, r.id < row.id) ∧
      ((relational sch).insertForm userID name description c.store).1
        = .ok { id := row.id, created_at := row.created_at, updated_at := row.updated_at,
                form_version := row.form_version } ∧
      inst.form_id = row.id ∧ inst.fields = fields ∧ inst.form_version = row.form_version ∧
      (InsertForm (relational sch) userID name description fields c).2.calls
        = c.calls ++ [Call.queryForm userID name description,
                      Call.queryFormInstance row.id fields row.form_version] := by
  unfold InsertForm at h ⊢
  by_cases hu : userID < 1
  · simp [hu] at h
  by_cases hv : name = "" ∨ fields = ""
  · simp [hu, hv] at h
  by_cases hm : userID ∈ c.store.users
  · have hfk : nextID (c.store.forms.map (fun r => r.id)) ∈
        (c.store.forms ++
          [({ id := nextID (c.store.forms.map (fun r => r.id)), user_id := userID,
              name := name, description := description, created_at := c.store.now,
              updated_at := c.store.now, form_version := sch.initialVersion } : FormRow)]).map
          (fun r => r.id) := by
      simp
    refine ⟨{ id := nextID (c.store.forms.map (fun r => r.id)), user_id := userID,
              name := name, description := description, created_at := c.store.now,
              updated_at := c.store.now, form_version := sch.initialVersion },
            { id := nextID (c.store.form_instances.map (fun i => i.id)),
              form_id := nextID (c.store.forms.map (fun r => r.id)),
              fields := fields, created_at := c.store.now,
              form_version := sch.initialVersion }, ?_⟩
    have hfresh : ∀ r ∈ c.store.forms, r.id < nextID (c.store.forms.map (fun r => r.id)) :=
      fun r hr => lt_nextID _ r.id (List.mem_map.mpr ⟨r, hr, rfl⟩)
    simp only [hu, hv, if_false, Conn.issue, relational, Database.insertForm, hm, if_true,
      Form.zero, Database.insertFormInstance, hfk]
    simpa using hfresh
  · simp [hu, hv, Conn.issue, relational, Database.insertForm, hm] at h
    split at h <;> simp at h

theorem InsertForm_creates_two_rows_witness :
    (InsertForm (relational Schema.example) 1 "Survey" "" "{}"
        (Conn.open Database.example)).1 = none ∧
    ∃ (row : FormRow) (inst : FormInstanceRow),
      (InsertForm (relational Schema.example) 1 "Survey" "" "{}"
          (Conn.open Database.example)).2.store.forms
        = (Conn.open Database.example).store.forms ++ [row] ∧
      (InsertForm (relational Schema.example) 1 "Survey" "" "{}"
          (Conn.open Database.example)).2.store.form_instances
        = (Conn.open Database.example).store.form_instances ++ [inst] ∧
      (InsertForm (relational Schema.example) 1 "Survey" "" "{}"
          (Conn.open Database.example)).2.store.users
        = (Conn.open Database.example).store.users ∧
      row.user_id = 1 ∧ row.name = "Survey" ∧ row.description = "" ∧
      (∀ r ∈ (Conn.open Database.example).store.forms, r.id < row.id) ∧
      ((relational Schema.example).insertForm 1 "Survey" ""
          (Conn.open Database.example).store).1
        = .ok { id := row.id, created_at := row.created_at, updated_at := row.updated_at,
                form_version := row.form_version } ∧
      inst.form_id = row.id ∧ inst.fields = "{}" ∧ inst.form_version = row.form_version ∧
      (InsertForm (relational Schema.example) 1 "Survey" "" "{}"
          (Conn.open Database.example)).2.calls
        = (Conn.open Database.example).calls ++
            [Call.queryForm 1 "Survey" "",
             Call.queryFormInstance row.id "{}" row.form_version] :=
  ⟨rfl, InsertForm_creates_two_rows Schema.example (Conn.open Database.example) 1 "Survey" ""
          "{}" rfl⟩

/-! ## Reading forms back -/

/-- C5: on a store with user 1 and no form, whose forms start at form_version 1,
InsertForm(1, "Survey", "", "{}") succeeds and stores a row with form_version 1, and
GetFormsByUser(1) then returns no error and exactly one Form, with Name "Survey" and
Description "", whose FormVersion is 0 and not the form_version of the row. -/
theorem GetFormsByUser_form_version_not_read :
    (InsertForm (relational Schema.example) 1 "Survey" "" "{}"
        (Conn.open Database.example)).1 = none ∧
    (InsertForm (relational Schema.example) 1 "Survey" "" "{}"
        (Conn.open Database.example)).2.store.forms.map (fun r => r.form_version)
      = [Schema.example.initialVersion] ∧
    Schema.example.initialVersion = 1 ∧
    (GetFormsByUser (relational Schema.example) 1
        (InsertForm (relational Schema.example) 1 "Survey" "" "{}"
          (Conn.open Database.example)).2).1
      = ([{ ID := 1, Name := "Survey", Description := "",
            CreatedAt := "2024-01-01 00:00:00", LastModified := "2024-01-01 00:00:00",
            FormVersion := 0 }], none) := by
  refine ⟨rfl, rfl, rfl, rfl⟩

/-! ## Deleting and updating on the relational store -/

/-- C8: on the relational store, for every state and every formID: when a forms row with
that id exists, DeleteForm returns no error, a second DeleteForm on the resulting state
returns ErrFormNotFound, and GetForm on the resulting state returns the zero Form with
ErrFormNotFound; when no such row exists, DeleteForm returns ErrFormNotFound and leaves
the store unchanged. -/
theorem DeleteForm_then_not_found (sch : Schema) (c : Conn Database) (formID : Int) :
    ((∃ r ∈ c.store.forms, r.id = formID) →
      (DeleteForm (relational sch) formID c).1 = none ∧
      (DeleteForm (relational sch) formID (DeleteForm (relational sch) formID c).2).1
        = some .ErrFormNotFound ∧
      (GetForm (relational sch) formID (DeleteForm (relational sch) formID c).2).1
        = (Form.zero, some .ErrFormNotFound)) ∧
    ((∀ r ∈ c.store.forms, r.id ≠ formID) →
      (DeleteForm (relational sch) formID c).1 = some .ErrFormNotFound ∧
      (DeleteForm (relational sch) formID c).2.store = c.store) := by
  constructor
  · intro hex
    have hne := rowsAffected_ne_zero c.store formID hex
    have hgone : ∀ r ∈ (Database.deleteForm sch formID c.store).2.forms, r.id ≠ formID := by
      intro r hr
      simp only [Database.deleteForm, List.mem_filter, decide_eq_true_eq] at hr
      exact hr.2
    refine ⟨?_, ?_, ?_⟩
    · simp [DeleteForm_relational, hne]
    · rw [DeleteForm_relational, DeleteForm_relational]
      simp only [(rowsAffected_eq_zero_iff _ formID).mpr hgone, if_true]
    · rw [DeleteForm_relational]
      have hfind : (Database.deleteForm sch formID c.store).2.forms.find?
          (fun r => decide (r.id = formID)) = none := by
        rw [List.find?_eq_none]
        intro r hr
        simpa using hgone r hr
      simp [GetForm, Conn.issue, relational, Database.selectForm, hfind]
  · intro hno
    have h0 := (rowsAffected_eq_zero_iff c.store formID).mpr hno
    refine ⟨by simp [DeleteForm_relational, h0], ?_⟩
    rw [DeleteForm_relational]
    have hkeep : c.store.forms.filter (fun r => decide (r.id ≠ formID)) = c.store.forms := by
      rw [List.filter_eq_self]
      intro r hr
      simpa using hno r hr
    simp only [Database.deleteForm, h0, hkeep, ne_eq, not_true_eq_false, and_false, if_false]

theorem DeleteForm_then_not_found_witness :
    ((∃ r ∈ (Conn.open Database.withForm).store.forms, r.id = 1) ∧
      (DeleteForm (relational Schema.example) 1 (Conn.open Database.withForm)).1 = none ∧
      (DeleteForm (relational Schema.example) 1
          (DeleteForm (relational Schema.example) 1 (Conn.open Database.withForm)).2).1
        = some .ErrFormNotFound ∧
      (GetForm (relational Schema.example) 1
          (DeleteForm (relational Schema.example) 1 (Conn.open Database.withForm)).2).1
        = (Form.zero, some .ErrFormNotFound)) ∧
    ((∀ r ∈ (Conn.open Database.withForm).store.forms, r.id ≠ 5) ∧
      (DeleteForm (relational Schema.example) 5 (Conn.open Database.withForm)).1
        = some .ErrFormNotFound ∧
      (DeleteForm (relational Schema.example) 5 (Conn.open Database.withForm)).2.store
        = (Conn.open Database.withForm).store) :=
  ⟨⟨by decide,
    (DeleteForm_then_not_found Schema.example (Conn.open Database.withForm) 1).1
      (by decide)⟩,
   ⟨by decide,
    (DeleteForm_then_not_found Schema.example (Conn.open Database.withForm) 5).2
      (by decide)⟩⟩

/-- C9: on the relational store, for every state, formID and name: when no forms row has
that id, UpdateFormName returns ErrFormNotFound and the store is unchanged; when one
exists, UpdateFormName returns no error, the users and form_instances are unchanged, and
row by row the forms table keeps the id, owning user, description and created_at of each row,
gives the rows with that id the new name and leaves every other row as it was.
UpdateFormDescription does the same with description in place of name. -/
theorem UpdateForm_frame (sch : Schema) (c : Conn Database) (formID : Int) (text : String) :
    ((∀ r ∈ c.store.forms, r.id ≠ formID) →
      (UpdateFormName (relational sch) formID text c).1 = some .ErrFormNotFound ∧
      (UpdateFormName (relational sch) formID text c).2.store = c.store) ∧
    ((∃ r ∈ c.store.forms, r.id = formID) →
      (UpdateFormName (relational sch) formID text c).1 = none ∧
      (UpdateFormName (relational sch) formID text c).2.store.users = c.store.users ∧
      (UpdateFormName (relational sch) formID text c).2.store.form_instances
        = c.store.form_instances ∧
      List.Forall₂
        (fun r r2 : FormRow =>
          r2.id = r.id ∧ r2.user_id = r.user_id ∧ r2.description = r.description ∧
          r2.created_at = r.created_at ∧ (r.id = formID → r2.name = text) ∧
          (r.id ≠ formID → r2 = r))
        c.store.forms (UpdateFormName (relational sch) formID text c).2.store.forms) ∧
    ((∀ r ∈ c.store.forms, r.id ≠ formID) →
      (UpdateFormDescription (relational sch) formID text c).1 = some .ErrFormNotFound ∧
      (UpdateFormDescription (relational sch) formID text c).2.store = c.store) ∧
    ((∃ r ∈ c.store.forms, r.id = formID) →
      (UpdateFormDescription (relational sch) formID text c).1 = none ∧
      (UpdateFormDescription (relational sch) formID text c).2.store.users = c.store.users ∧
      (UpdateFormDescription (relational sch) formID text c).2.store.form_instances
        = c.store.form_instances ∧
      List.Forall₂
        (fun r r2 : FormRow =>
          r2.id = r.id ∧ r2.user_id = r.user_id ∧ r2.name = r.name ∧
          r2.created_at = r.created_at ∧ (r.id = formID → r2.description = text) ∧
          (r.id ≠ formID → r2 = r))
        c.store.forms
        (UpdateFormDescription (relational sch) formID text c).2.store.forms) := by
  refine ⟨?_, ?_, ?_, ?_⟩
  · intro hno
    have h0 := (rowsAffected_eq_zero_iff c.store formID).mpr hno
    refine ⟨by simp [UpdateFormName_relational, h0], ?_⟩
    rw [UpdateFormName_relational]
    simp only [Database.updateFormName, map_eq_self_of_no_match _ formID _ hno]
  · intro hex
    have hne := rowsAffected_ne_zero c.store formID hex
    rw [UpdateFormName_relational]
    refine ⟨by simp [hne], rfl, rfl, ?_⟩
    simp only [Database.updateFormName]
    refine forall₂_map_update _ formID _ _ ?_ ?_
    · intro r hr
      exact ⟨rfl, rfl, rfl, rfl, fun _ => rfl, fun h => absurd hr h⟩
    · intro r hr
      exact ⟨rfl, rfl, rfl, rfl, fun h => absurd h hr, fun _ => rfl⟩
  · intro hno
    have h0 := (rowsAffected_eq_zero_iff c.store formID).mpr hno
    refine ⟨by simp [UpdateFormDescription_relational, h0], ?_⟩
    rw [UpdateFormDescription_relational]
    simp only [Database.updateFormDescription, map_eq_self_of_no_match _ formID _ hno]
  · intro hex
    have hne := rowsAffected_ne_zero c.store formID hex
    rw [UpdateFormDescription_relational]
    refine ⟨by simp [hne], rfl, rfl, ?_⟩
    simp only [Database.updateFormDescription]
    refine forall₂_map_update _ formID _ _ ?_ ?_
    · intro r hr
      exact ⟨rfl, rfl, rfl, rfl, fun _ => rfl, fun h => absurd hr h⟩
    · intro r hr
      exact ⟨rfl, rfl, rfl, rfl, fun h => absurd h hr, fun _ => rfl⟩

theorem UpdateForm_frame_witness :
    ((∀ r ∈ (Conn.open Database.withForm).store.forms, r.id ≠ 5) ∧
      (UpdateFormName (relational Schema.example) 5 "Poll" (Conn.open Database.withForm)).1
        = some .ErrFormNotFound ∧
      (UpdateFormName (relational Schema.example) 5 "Poll"
          (Conn.open Database.withForm)).2.store = (Conn.open Database.withForm).store) ∧
    ((∃ r ∈ (Conn.open Database.withForm).store.forms, r.id = 1) ∧
      (UpdateFormName (relational Schema.example) 1 "Poll" (Conn.open Database.withForm)).1
        = none) ∧
    ((UpdateFormDescription (relational Schema.example) 5 "weekly"
          (Conn.open Database.withForm)).1 = some .ErrFormNotFound ∧
      (UpdateFormDescription (relational Schema.example) 5 "weekly"
          (Conn.open Database.withForm)).2.store = (Conn.open Database.withForm).store) ∧
    (UpdateFormDescription (relational Schema.example) 1 "weekly"
        (Conn.open Database.withForm)).1 = none :=
  ⟨⟨by decide,
    (UpdateForm_frame Schema.example (Conn.open Database.withForm) 5 "Poll").1 (by decide)⟩,
   ⟨by decide,
    ((UpdateForm_frame Schema.example (Conn.open Database.withForm) 1 "Poll").2.1
      (by decide)).1⟩,
   (UpdateForm_frame Schema.example (Conn.open Database.withForm) 5 "weekly").2.2.1
      (by decide),
   ((UpdateForm_frame Schema.example (Conn.open Database.withForm) 1 "weekly").2.2.2
      (by decide)).1⟩

end Models
